import Mathlib

/-!
Verification development for the diet-api-c HTTP service.

Shallow embedding of the server's core logic:
* C string parsing helpers (`atoi`, `strtol` base 10) used by the router;
* route dispatch from `src/main.c` (`request_handler`, `extract_id_from_path`,
  `extract_template_id`);
* the incremental POST body collector of `request_handler`;
* the database handle `db.c` (`db_query` / `db_execute`) as a pure oracle plus
  a transition system for its mutex discipline;
* the route handlers of `src/routes.c` (categories, foods, template-full
  aggregate builder, bulk insert).

Strings are modelled as `List Char`; machine integers as unbounded `Int`
(the `(int)` narrowing cast in `extract_template_id` is modelled explicitly
by `wrap32`); the MySQL client library and cJSON parser are modelled as
oracles supplied as arguments.
-/

namespace DietApi

/-! ## C standard library string parsing -/

/-- The characters accepted by C `isspace` in the default locale. -/
def isCSpace (c : Char) : Bool :=
  c == ' ' || c == '\t' || c == '\n' || c == '\r' ||
  c == Char.ofNat 11 || c == Char.ofNat 12

/-- Drop leading `isspace` characters, as `atoi`/`strtol` do. -/
def skipWs : List Char → List Char
  | [] => []
  | c :: cs => if isCSpace c then skipWs cs else c :: cs

/-- Numeric value of a list of decimal digit characters. -/
def digitsToNat (ds : List Char) : Nat :=
  ds.foldl (fun a c => a * 10 + (c.toNat - 48)) 0

/-- Maximal leading run of decimal digits together with the rest of the
input; `none` when the input does not start with a digit (C "no conversion
performed"). -/
def parseDigits (s : List Char) : Option (Nat × List Char) :=
  let ds := s.takeWhile Char.isDigit
  if ds = [] then none else some (digitsToNat ds, s.dropWhile Char.isDigit)

/-- C `atoi`: skip whitespace, optional sign, maximal digit run; `0` when no
conversion can be performed.  Overflow is undefined behaviour in C and is
modelled as unbounded arithmetic. -/
def atoi (s : List Char) : Int :=
  match skipWs s with
  | '-' :: t =>
    match parseDigits t with
    | some p => -(p.1 : Int)
    | none => 0
  | '+' :: t =>
    match parseDigits t with
    | some p => (p.1 : Int)
    | none => 0
  | s1 =>
    match parseDigits s1 with
    | some p => (p.1 : Int)
    | none => 0

/-- Sign handling shared by `atoi`/`strtol`: one optional leading `-` or
`+`; returns whether the value is negated and the input after the sign. -/
def splitSign : List Char → Bool × List Char
  | '-' :: t => (true, t)
  | '+' :: t => (false, t)
  | s => (false, s)

/-- C `strtol(s, &end, 10)`: returns the parsed value and the suffix the end
pointer is left at, or `none` when no conversion was performed (in which case
the end pointer equals the start pointer). -/
def strtol10 (s : List Char) : Option (Int × List Char) :=
  let sg := splitSign (skipWs s)
  (parseDigits sg.2).map
    (fun p => (if sg.1 then -(p.1 : Int) else (p.1 : Int), p.2))

/-- The C cast `(int)` applied to a `long` value: wrap into
`[-2^31, 2^31)` (two's-complement narrowing). -/
def wrap32 (v : Int) : Int := (v + 2 ^ 31) % 2 ^ 32 - 2 ^ 31

/-! ## URL prefix matching (`strncmp(url, prefix, len) == 0` plus skip) -/

/-- Prefix stripping: `stripPre p s` returns `some rest` when `s` starts with `p` and `rest`
is the remainder, `none` otherwise — the combination of
`strncmp(url, p, strlen(p)) == 0` and `url + strlen(p)`. -/
def stripPre : List Char → List Char → Option (List Char)
  | [], s => some s
  | _ :: _, [] => none
  | p :: ps, c :: cs => if p = c then stripPre ps cs else none

/-- Model of `extract_id_from_path` from `src/main.c`: `-1` when the prefix does not
match or the remainder is empty, else `atoi` of the remainder. -/
def extract_id_from_path (url pre : List Char) : Int :=
  match stripPre pre url with
  | none => -1
  | some [] => -1
  | some rem => atoi rem

def tmplPre : List Char := "/api/templates/".toList

/-- Model of `extract_template_id` from `src/main.c`: requires the `/api/templates/`
prefix, then `strtol` must consume at least one character and leave exactly
the suffix `/full`; the `long` result is narrowed by the `(int)` cast. -/
def extract_template_id (url : List Char) : Int :=
  match stripPre tmplPre url with
  | none => -1
  | some rem =>
    match strtol10 rem with
    | none => -1
    | some (v, rest) => if rest = "/full".toList then wrap32 v else -1

/-! ## GET route dispatch (`request_handler`, `src/main.c`) -/

def catPre : List Char := "/api/categories/".toList
def foodPre : List Char := "/api/foods/".toList

/-- The route a GET request is dispatched to. -/
inductive RouteAction where
  | health
  | listCategories
  | getCategory (id : Int)
  | listFoods
  | getFood (id : Int)
  | templateFull (id : Int)
  | notFound
  deriving DecidableEq, Repr

/-- The GET-method routing chain of `request_handler` (`src/main.c`): exact
paths first, then the parameterized routes, each guarded by `id > 0`; a
non-positive extracted id falls through to the next route and ultimately to
the 404 response. -/
def dispatchGet (url : List Char) : RouteAction :=
  if url = "/health".toList then .health
  else if url = "/api/categories".toList then .listCategories
  else
    let cid := extract_id_from_path url catPre
    if cid > 0 then .getCategory cid
    else if url = "/api/foods".toList then .listFoods
    else
      let fid := extract_id_from_path url foodPre
      if fid > 0 then .getFood fid
      else
        let tid := extract_template_id url
        if tid > 0 then .templateFull tid
        else .notFound

/-! ## Database handle (`db.c`) as a pure oracle

`db_query`/`db_execute` guard on the connection pointer being non-NULL and
then delegate to the MySQL client library.  The library is modelled as a
`Backend` oracle mapping structured queries to results; a query failure or a
NULL `mysql_store_result` is the oracle returning `none`.  The SQL strings
built by `snprintf` in `routes.c` are abstracted into the structured
`SqlQuery` type, keyed by exactly the values interpolated into them. -/

/-- A result row: nullable string cells, as `MYSQL_ROW` exposes them. -/
def Row : Type := List (Option (List Char))

/-- The filters interpolated into the `/api/foods` list query. -/
structure FoodsQuery where
  categoryFilter : Option Int
  searchFilter : Option (List Char)
  limit : Int
  deriving DecidableEq, Repr

/-- One row of the bulk `INSERT INTO diet_meal_items` statement. -/
structure InsertQ where
  meal : Int
  food : Int
  pmin : Int
  pmax : Int
  sortPos : Int
  deriving DecidableEq, Repr

/-- The SQL statements issued by `routes.c`, abstracted by the values
interpolated into them. -/
inductive SqlQuery where
  | categories
  | category (id : Int)
  | foods (q : FoodsQuery)
  | food (id : Int)
  | template (id : Int)
  | days (templateId : Int)
  | meals (dayId : Int)
  | items (mealId : Int)
  | insertItem (q : InsertQ)
  deriving DecidableEq

/-- The MySQL client library, as seen through `mysql_query` +
`mysql_store_result` / `mysql_affected_rows`: `none` models a failed query
(or a NULL result set), `some` a successful one. -/
structure Backend where
  runQuery : SqlQuery → Option (List Row)
  runExec : SqlQuery → Option Nat

/-- Model of `db_query` from `db.c`: NULL when the connection was never established
(`db_conn == NULL`) or the backend fails, else the stored result set. -/
def db_query (conn : Option Backend) (q : SqlQuery) : Option (List Row) :=
  match conn with
  | none => none
  | some b => b.runQuery q

/-- Model of `db_execute` from `db.c`: `-1` when not connected or the statement
fails, else the engine's affected-row count. -/
def db_execute (conn : Option Backend) (q : SqlQuery) : Int :=
  match conn with
  | none => -1
  | some b =>
    match b.runExec q with
    | none => -1
    | some n => (n : Int)

/-! ## Row decoding helpers (the `row[k] ? ... : default` idiom) -/

/-- Cell access `row[k] ? row[k] : ""` — a NULL or missing cell becomes the empty
string. -/
def cellStr (r : Row) (k : Nat) : List Char :=
  match List.get? r k with
  | some (some s) => s
  | _ => []

/-- Cell access `row[k] ? atoi(row[k]) : 0` — a NULL or missing cell becomes `0`.
The handlers apply `atoi` to id cells without a NULL guard; id columns are
non-nullable, so the guarded model coincides there. -/
def cellInt (r : Row) (k : Nat) : Int :=
  match List.get? r k with
  | some (some s) => atoi s
  | _ => 0

/-! ## Response envelope -/

/-- A handler response: either an error envelope
`{"success": false, "error": msg}` at a status code, or a success payload at
a status code. -/
inductive Resp (α : Type) where
  | err (status : Nat) (msg : List Char)
  | ok (status : Nat) (val : α)
  deriving DecidableEq, Repr

/-- The HTTP status code of a response. -/
def Resp.status : Resp α → Nat
  | .err s _ => s
  | .ok s _ => s

def dbErrMsg : List Char := "Database error".toList
def tmplNotFoundMsg : List Char := "Template not found".toList
def notFoundMsg : List Char := "Not found".toList
def tooLargeMsg : List Char := "Request body too large".toList
def invalidJsonMsg : List Char := "Invalid JSON".toList
def invalidFormatMsg : List Char := "Invalid request format".toList

/-! ## Simple GET handlers (`routes.c`) -/

/-- A decoded `food_categories` row. -/
structure CatOut where
  id : Int
  name : List Char
  icon : List Char
  color : List Char
  sortOrder : Int
  deriving DecidableEq, Repr

def catOfRow (r : Row) : CatOut :=
  ⟨cellInt r 0, cellStr r 1, cellStr r 2, cellStr r 3, cellInt r 4⟩

/-- Model of `handle_list_categories`: 500 on query failure, else 200 with all rows
decoded. -/
def handle_list_categories (conn : Option Backend) : Resp (List CatOut) :=
  match db_query conn .categories with
  | none => .err 500 dbErrMsg
  | some rows => .ok 200 (rows.map catOfRow)

/-- Model of `handle_get_category`: 500 on query failure, 404 when the result has no
row, else 200 with the first row decoded. -/
def handle_get_category (conn : Option Backend) (id : Int) : Resp CatOut :=
  match db_query conn (.category id) with
  | none => .err 500 dbErrMsg
  | some [] => .err 404 "Category not found".toList
  | some (r :: _) => .ok 200 (catOfRow r)

/-- A decoded `food_items` row.  The four nutrient cells are parsed with
`atof` in the source; floating point is kept as the raw cell text here. -/
structure FoodOut where
  id : Int
  name : List Char
  categoryId : Int
  caloriesRaw : List Char
  proteinRaw : List Char
  carbsRaw : List Char
  fatRaw : List Char
  deriving DecidableEq, Repr

def foodOfRow (r : Row) : FoodOut :=
  ⟨cellInt r 0, cellStr r 1, cellInt r 2, cellStr r 3, cellStr r 4,
   cellStr r 5, cellStr r 6⟩

/-- Limit validation of `handle_list_foods`: default 100 when absent;
`atoi`-parsed, with results `<= 0` or `> 1000` replaced by the default. -/
def parseLimit (limitStr : Option (List Char)) : Int :=
  match limitStr with
  | none => 100
  | some s =>
    let l := atoi s
    if l ≤ 0 ∨ l > 1000 then 100 else l

/-- The query-construction logic of `handle_list_foods` (`routes.c`):
`category_id` is `atoi`-parsed when present, `search` is appended when
present and non-empty, and `limit` validated by `parseLimit`. -/
def buildFoodsQuery (categoryIdStr searchStr limitStr : Option (List Char)) :
    FoodsQuery :=
  let catF :=
    match categoryIdStr with
    | none => none
    | some s => some (atoi s)
  let searchF :=
    match searchStr with
    | none => none
    | some s => if s.length > 0 then some s else none
  ⟨catF, searchF, parseLimit limitStr⟩

/-- Model of `handle_list_foods`: builds the filtered query, 500 on failure, else 200
with all rows decoded. -/
def handle_list_foods (conn : Option Backend)
    (categoryIdStr searchStr limitStr : Option (List Char)) :
    Resp (List FoodOut) :=
  match db_query conn (.foods (buildFoodsQuery categoryIdStr searchStr limitStr)) with
  | none => .err 500 dbErrMsg
  | some rows => .ok 200 (rows.map foodOfRow)

/-- Model of `handle_get_food`: 500 on query failure, 404 when no row, else 200. -/
def handle_get_food (conn : Option Backend) (id : Int) : Resp FoodOut :=
  match db_query conn (.food id) with
  | none => .err 500 dbErrMsg
  | some [] => .err 404 "Food not found".toList
  | some (r :: _) => .ok 200 (foodOfRow r)

/-! ## Aggregate builder (`handle_get_template_full`, `routes.c`)

Queries are keyed by the ids interpolated into the SQL; since the oracle is
a pure function, populating the pre-attached empty `meals`/`items` arrays in
a second pass (as the C loops do) is equivalent to building each node with
its children directly, which is how the model is written. -/

/-- A decoded `diet_meal_items` row joined with `food_items`. -/
structure ItemOut where
  id : Int
  foodItemId : Int
  foodName : List Char
  portionMin : Int
  portionMax : Int
  deriving DecidableEq, Repr

/-- A decoded `diet_meals` row with its populated `items` array. -/
structure MealOut where
  id : Int
  mealType : List Char
  mealOrder : Int
  timeSuggestion : List Char
  items : List ItemOut
  deriving DecidableEq, Repr

/-- A decoded `diet_days` row with its populated `meals` array. -/
structure DayOut where
  id : Int
  dayNumber : Int
  dayName : List Char
  meals : List MealOut
  deriving DecidableEq, Repr

/-- The decoded `diet_templates` row with its populated `days` array. -/
structure TemplateOut where
  id : Int
  code : List Char
  name : List Char
  description : List Char
  segment : List Char
  ttype : List Char
  durationDays : Int
  caloriesTarget : Int
  days : List DayOut
  deriving DecidableEq, Repr

def itemOfRow (r : Row) : ItemOut :=
  ⟨cellInt r 0, cellInt r 1, cellStr r 2, cellInt r 3, cellInt r 4⟩

/-- Build one meal node: a failed items query (`result == NULL` then
`continue`) leaves the pre-attached `items` array empty; item rows are not
bounded. -/
def buildMeal (conn : Option Backend) (r : Row) : MealOut :=
  let mealId := cellInt r 0
  let items :=
    match db_query conn (.items mealId) with
    | none => []
    | some itemRows => itemRows.map itemOfRow
  ⟨mealId, cellStr r 1, cellInt r 2, cellStr r 3, items⟩

/-- Build one day node: a failed meals query leaves the pre-attached `meals`
array empty; at most the first 50 meal rows are taken (`meal_count < 50`). -/
def buildDay (conn : Option Backend) (r : Row) : DayOut :=
  let dayId := cellInt r 0
  let meals :=
    match db_query conn (.meals dayId) with
    | none => []
    | some mealRows => (mealRows.take 50).map (buildMeal conn)
  ⟨dayId, cellInt r 1, cellStr r 2, meals⟩

/-- Model of `handle_get_template_full` from `routes.c`: a failed template
query is a 500, an empty template result a 404, a failed days query a 500;
at most the first 100 day rows are taken (`day_count < 100`), and failures
below the day level are non-fatal. -/
def handle_get_template_full (conn : Option Backend) (id : Int) :
    Resp TemplateOut :=
  match db_query conn (.template id) with
  | none => .err 500 dbErrMsg
  | some [] => .err 404 tmplNotFoundMsg
  | some (r :: _) =>
    match db_query conn (.days id) with
    | none => .err 500 dbErrMsg
    | some dayRows =>
      .ok 200
        ⟨cellInt r 0, cellStr r 1, cellStr r 2, cellStr r 3, cellStr r 4,
         cellStr r 5, cellInt r 6, cellInt r 7,
         (dayRows.take 100).map (buildDay conn)⟩

/-! ## JSON values and the bulk-insert handler (`handle_bulk_insert`) -/

/-- A parsed cJSON value.  Numbers are modelled as the `valueint` field the
handler reads (cJSON truncates doubles to int there). -/
inductive Json where
  | null
  | jbool (b : Bool)
  | num (n : Int)
  | str (s : List Char)
  | arr (elems : List Json)
  | obj (fields : List (List Char × Json))

/-- ASCII lower-casing, as C `tolower` acts on the key bytes. -/
def lowerC (c : Char) : Char :=
  if 'A' ≤ c ∧ c ≤ 'Z' then Char.ofNat (c.toNat + 32) else c

/-- Key comparison of `cJSON_GetObjectItem`, which is case-insensitive. -/
def keyEq (a b : List Char) : Bool :=
  a.map lowerC == b.map lowerC

/-- Model of `cJSON_GetObjectItem`: first field with a case-insensitively
matching name; NULL on a non-object. -/
def getItem : Json → List Char → Option Json
  | .obj fields, key => (fields.find? (fun f => keyEq f.1 key)).map Prod.snd
  | _, _ => none

/-- The insert statement built for array entry `i`, or `none` when the entry
is skipped because `food_item_id`, `portion_grams_min` or
`portion_grams_max` is not a number.  `sort_order` defaults to the array
index `i` when not a number. -/
def insertQueryOf (mealId : Int) (i : Nat) (item : Json) : Option InsertQ :=
  match getItem item "food_item_id".toList,
        getItem item "portion_grams_min".toList,
        getItem item "portion_grams_max".toList with
  | some (.num f), some (.num mn), some (.num mx) =>
    some ⟨mealId, f, mn, mx,
      match getItem item "sort_order".toList with
      | some (.num s) => s
      | _ => (i : Int)⟩
  | _, _, _ => none

/-- Whether array entry `i` contributes to the inserted count: it must not
be skipped, and its `db_execute` must report a non-negative affected-row
count. -/
def itemInserted (conn : Option Backend) (mealId : Int) (i : Nat)
    (item : Json) : Bool :=
  match insertQueryOf mealId i item with
  | none => false
  | some q => decide (0 ≤ db_execute conn (.insertItem q))

/-- The `inserted++` loop of `handle_bulk_insert`, counting from array
index `i`. -/
def countInserted (conn : Option Backend) (mealId : Int) :
    Nat → List Json → Nat
  | _, [] => 0
  | i, item :: rest =>
    (if itemInserted conn mealId i item then 1 else 0) +
      countInserted conn mealId (i + 1) rest

/-- Model of `handle_bulk_insert` from `routes.c`, taking the result of
`cJSON_Parse` on the accumulated body (`none` models a parse failure):
400 on unparsable JSON, 400 when `meal_id` is not a number or `items` not an
array, else 201 with the count of successful per-item inserts. -/
def handle_bulk_insert (conn : Option Backend) (parsed : Option Json) :
    Resp Int :=
  match parsed with
  | none => .err 400 invalidJsonMsg
  | some input =>
    match getItem input "meal_id".toList, getItem input "items".toList with
    | some (.num mealId), some (.arr items) =>
      .ok 201 ((countInserted conn mealId 0 items : Nat) : Int)
    | _, _ => .err 400 invalidFormatMsg

/-! ## Incremental body collector (POST branch of `request_handler`) -/

/-- Model of `MAX_POST_SIZE` (1 MiB) from `src/main.c`. -/
def MAX_POST_SIZE : Nat := 1024 * 1024

/-- The accumulation loop over the non-empty data callbacks of one POST
connection, starting from accumulated bytes `acc`: `Sum.inl data` when all
chunks were appended, `Sum.inr k` when the size check
`post_data_len + upload_data_size > MAX_POST_SIZE` rejected the `k`-th
remaining chunk before appending it. -/
def accumulate (acc : List Char) : List (List Char) → Sum (List Char) Nat
  | [] => .inl acc
  | c :: rest =>
    if acc.length + c.length > MAX_POST_SIZE then .inr 0
    else
      match accumulate (acc ++ c) rest with
      | .inl d => .inl d
      | .inr k => .inr (k + 1)

/-- The terminal outcome of a POST connection. -/
inductive PostFinal where
  | rejected (chunksConsumed : Nat)
  | handled (resp : Resp Int)
  | notFound
  deriving DecidableEq, Repr

/-- HTTP status of the terminal POST outcome: 413 on rejection, the bulk
handler's status when it was invoked, 404 otherwise. -/
def PostFinal.status : PostFinal → Nat
  | .rejected _ => 413
  | .handled r => r.status
  | .notFound => 404

/-- The result of a completed POST exchange together with the final contents
of `*con_cls` (the per-connection accumulation state slot). -/
structure PostResult where
  final : PostFinal
  conCls : Option (List Char)

/-- Model of the POST branch of `request_handler`: the first callback only
allocates the empty accumulation state; the data callbacks are folded by
`accumulate`; oversize is terminal with the state freed; on the zero-byte
callback the bulk-insert handler is invoked only for the exact path
`/api/benchmark/bulk-insert`, any other path getting the 404, and the state
is freed on every terminal path. -/
def runPost (conn : Option Backend) (parse : List Char → Option Json)
    (url : List Char) (chunks : List (List Char)) : PostResult :=
  match accumulate [] chunks with
  | .inr k => ⟨.rejected k, none⟩
  | .inl data =>
    if url = "/api/benchmark/bulk-insert".toList then
      ⟨.handled (handle_bulk_insert conn (parse data)), none⟩
    else ⟨.notFound, none⟩

/-! ## Mutex discipline of the shared database handle (`db.c`)

Both `db_query` and `db_execute` have the same locking shape:
`pthread_mutex_lock`; NULL-connection check (early unlocked return);
`mysql_query` (the query send, an access to the shared session); then
`mysql_store_result` respectively `mysql_affected_rows` (the result fetch,
another access to the shared session); `pthread_mutex_unlock` on every exit
path.  The transition system below has one program counter per connection
worker following that shape; `lock` is `db_mutex`, acquirable only when
free.  The critical section — the phases in which the shared session is
accessed — spans from a successful acquire to the unlocking return, so the
whole send-plus-fetch sequence of a call is covered. -/

/-- Program counter of one worker with respect to `db_query`/`db_execute`:
outside any call, blocked on `pthread_mutex_lock`, holding the mutex before
the send, or holding it after the send. -/
inductive Phase where
  | idle
  | waiting
  | locked
  | sent
  deriving DecidableEq, Repr

/-- Global state: the mutex owner (if any) and every worker's phase. -/
structure MState (n : Nat) where
  lock : Option (Fin n)
  pc : Fin n → Phase

/-- One interleaving step of the worker pool.  `acquire` needs the mutex
free; `connNull` is the early unlocked return on `db_conn == NULL`; `send`
is `mysql_query`; `sendFail` the unlocked return on its failure; and
`fetchRelease` performs the result fetch followed by the unlock. -/
inductive DbStep (n : Nat) : MState n → MState n → Prop where
  | callOp (l : Option (Fin n)) (pc : Fin n → Phase) (t : Fin n) :
      pc t = Phase.idle →
      DbStep n ⟨l, pc⟩ ⟨l, Function.update pc t Phase.waiting⟩
  | acquire (pc : Fin n → Phase) (t : Fin n) :
      pc t = Phase.waiting →
      DbStep n ⟨none, pc⟩ ⟨some t, Function.update pc t Phase.locked⟩
  | connNull (pc : Fin n → Phase) (t : Fin n) :
      pc t = Phase.locked →
      DbStep n ⟨some t, pc⟩ ⟨none, Function.update pc t Phase.idle⟩
  | send (pc : Fin n → Phase) (t : Fin n) :
      pc t = Phase.locked →
      DbStep n ⟨some t, pc⟩ ⟨some t, Function.update pc t Phase.sent⟩
  | sendFail (pc : Fin n → Phase) (t : Fin n) :
      pc t = Phase.sent →
      DbStep n ⟨some t, pc⟩ ⟨none, Function.update pc t Phase.idle⟩
  | fetchRelease (pc : Fin n → Phase) (t : Fin n) :
      pc t = Phase.sent →
      DbStep n ⟨some t, pc⟩ ⟨none, Function.update pc t Phase.idle⟩

/-- All workers idle, mutex free. -/
def initState (n : Nat) : MState n := ⟨none, fun _ => Phase.idle⟩

/-! ## Specification-side definitions and concrete fixtures -/

/-- Specification-side reading of "a valid positive decimal integer": one or
more decimal digits and nothing else, of positive value. -/
def posDecimal (s : List Char) : Bool :=
  !s.isEmpty && s.all Char.isDigit && decide (0 < digitsToNat s)

/-- Whether the input does not begin with a whitespace character. -/
def noLeadWs : List Char → Bool
  | [] => true
  | c :: _ => !isCSpace c

/-- Specification-side reading of the `/api/templates/{id}/full` remainder
grammar: an integer literal (optional sign, one or more digits) immediately
followed by exactly the literal `/full`. -/
def intLitFull (s : List Char) : Option Int :=
  let sg := splitSign s
  match parseDigits sg.2 with
  | none => none
  | some p =>
    if p.2 = "/full".toList then
      some (if sg.1 then -(p.1 : Int) else (p.1 : Int))
    else none

/-- A concrete template row (id 1). -/
def wRowT : Row :=
  [some "1".toList, some "T1".toList, some "Tpl".toList, none, none, none,
   some "7".toList, none]

/-- A concrete day row with id 11. -/
def wRowD1 : Row := [some "11".toList, some "1".toList, some "Mon".toList]

/-- A concrete day row with id 12. -/
def wRowD2 : Row := [some "12".toList, some "2".toList, some "Tue".toList]

/-- A concrete meal row with id 21. -/
def wRowM : Row :=
  [some "21".toList, some "breakfast".toList, some "1".toList, none]

/-- A concrete backend for exercising the aggregate builder: template 1
exists with two days; the meals query fails for day 11 and succeeds for day
12 with one meal; the items query fails for meal 21. -/
def wBackend : Backend :=
  ⟨fun q =>
     match q with
     | .template i => if i = 1 then some [wRowT] else none
     | .days i => if i = 1 then some [wRowD1, wRowD2] else none
     | .meals i => if i = 12 then some [wRowM] else none
     | _ => none,
   fun _ => none⟩

/-- A backend on which every insert statement succeeds with one affected
row (reads are irrelevant). -/
def okBackend : Backend := ⟨fun _ => none, fun _ => some 1⟩

/-- A well-formed bulk-insert item entry for food id `f`. -/
def vItem (f : Int) : Json :=
  Json.obj
    [("food_item_id".toList, Json.num f),
     ("portion_grams_min".toList, Json.num 10),
     ("portion_grams_max".toList, Json.num 20)]

/-- An item entry missing the numeric food reference. -/
def badItemA : Json :=
  Json.obj
    [("portion_grams_min".toList, Json.num 10),
     ("portion_grams_max".toList, Json.num 20)]

/-- An item entry missing the numeric min portion. -/
def badItemB : Json :=
  Json.obj
    [("food_item_id".toList, Json.num 5),
     ("portion_grams_max".toList, Json.num 20)]

/-- A batch of five item entries of which two lack a required field. -/
def c6Items : List Json := [vItem 1, badItemA, vItem 2, badItemB, vItem 3]

/-- A well-formed bulk-insert payload over `c6Items` targeting meal 7. -/
def c6Payload : Json :=
  Json.obj
    [("meal_id".toList, Json.num 7), ("items".toList, Json.arr c6Items)]

/-- A well-formed bulk-insert payload with one valid item, used against the
dead-connection state. -/
def c9Payload : Json :=
  Json.obj
    [("meal_id".toList, Json.num 1), ("items".toList, Json.arr [vItem 2])]

/-- Worker pool of two after worker 0 called into `db_query`. -/
def wPc1 : Fin 2 → Phase := Function.update (fun _ => Phase.idle) 0 Phase.waiting

/-- Worker pool of two after worker 0 acquired the mutex. -/
def wPc2 : Fin 2 → Phase := Function.update wPc1 0 Phase.locked

/-- Concrete global state: worker 0 inside the critical section. -/
def wState : MState 2 := ⟨some 0, wPc2⟩

/-- A single body chunk one byte over the 1 MiB cap. -/
def c2chunks : List (List Char) := [List.replicate (MAX_POST_SIZE + 1) 'a']

/-- States reachable by interleaving db-call steps of the worker pool. -/
inductive Reach (n : Nat) : MState n → Prop where
  | init : Reach n (initState n)
  | step {s s' : MState n} : Reach n s → DbStep n s s' → Reach n s'

/-- Worker `t` has a query/execute call in flight: it holds the mutex and is
between the successful lock acquisition and the unlocking return, the span
containing both the query send and the result fetch. -/
def inFlight {n : Nat} (s : MState n) (t : Fin n) : Prop :=
  s.pc t = Phase.locked ∨ s.pc t = Phase.sent

/-- Lock-ownership invariant: any worker inside the critical section owns
the mutex. -/
def LockInv {n : Nat} (s : MState n) : Prop :=
  ∀ t : Fin n, inFlight s t → s.lock = some t

theorem lockInv_of_reach {n : Nat} {s : MState n} (h : Reach n s) :
    LockInv s := by
  induction h with
  | init =>
    intro t ht
    rcases ht with ht | ht <;> simp [initState] at ht
  | step _ hstep ih =>
    cases hstep with
    | callOp l pc t hpc =>
      intro u hu
      rcases eq_or_ne u t with rfl | hne
      · rcases hu with hu | hu <;>
          simp [inFlight, Function.update] at hu
      · have hu' : inFlight (⟨l, pc⟩ : MState n) u := by
          rcases hu with hu | hu <;>
            [left; right] <;>
            simpa [inFlight, Function.update, hne] using hu
        exact ih u hu'
    | acquire pc t hpc =>
      intro u hu
      rcases eq_or_ne u t with rfl | hne
      · rfl
      · have hu' : inFlight (⟨none, pc⟩ : MState n) u := by
          rcases hu with hu | hu <;>
            [left; right] <;>
            simpa [inFlight, Function.update, hne] using hu
        have := ih u hu'
        simp at this
    | connNull pc t hpc =>
      intro u hu
      rcases eq_or_ne u t with rfl | hne
      · rcases hu with hu | hu <;>
          simp [inFlight, Function.update] at hu
      · have hu' : inFlight (⟨some t, pc⟩ : MState n) u := by
          rcases hu with hu | hu <;>
            [left; right] <;>
            simpa [inFlight, Function.update, hne] using hu
        have := ih u hu'
        simp at this
        exact absurd this.symm hne
    | send pc t hpc =>
      intro u hu
      rcases eq_or_ne u t with rfl | hne
      · rfl
      · have hu' : inFlight (⟨some t, pc⟩ : MState n) u := by
          rcases hu with hu | hu <;>
            [left; right] <;>
            simpa [inFlight, Function.update, hne] using hu
        have := ih u hu'
        simp at this
        exact absurd this.symm hne
    | sendFail pc t hpc =>
      intro u hu
      rcases eq_or_ne u t with rfl | hne
      · rcases hu with hu | hu <;>
          simp [inFlight, Function.update] at hu
      · have hu' : inFlight (⟨some t, pc⟩ : MState n) u := by
          rcases hu with hu | hu <;>
            [left; right] <;>
            simpa [inFlight, Function.update, hne] using hu
        have := ih u hu'
        simp at this
        exact absurd this.symm hne
    | fetchRelease pc t hpc =>
      intro u hu
      rcases eq_or_ne u t with rfl | hne
      · rcases hu with hu | hu <;>
          simp [inFlight, Function.update] at hu
      · have hu' : inFlight (⟨some t, pc⟩ : MState n) u := by
          rcases hu with hu | hu <;>
            [left; right] <;>
            simpa [inFlight, Function.update, hne] using hu
        have := ih u hu'
        simp at this
        exact absurd this.symm hne

/-! ## Helper lemmas -/

theorem stripPre_append (p s : List Char) : stripPre p (p ++ s) = some s := by
  induction p with
  | nil => rfl
  | cons c cs ih => simp [stripPre, ih]

theorem append_ne {p L : List Char} (rem : List Char)
    (h : stripPre p L = none) : p ++ rem ≠ L := by
  intro hEq
  have h2 := congrArg (stripPre p) hEq
  rw [stripPre_append, h] at h2
  exact Option.noConfusion h2

theorem catPre_ne_health (rem : List Char) :
    catPre ++ rem ≠ "/health".toList := append_ne rem rfl

theorem catPre_ne_listCat (rem : List Char) :
    catPre ++ rem ≠ "/api/categories".toList := append_ne rem rfl

theorem catPre_ne_listFoods (rem : List Char) :
    catPre ++ rem ≠ "/api/foods".toList := append_ne rem rfl

theorem foodPre_ne_health (rem : List Char) :
    foodPre ++ rem ≠ "/health".toList := append_ne rem rfl

theorem foodPre_ne_listCat (rem : List Char) :
    foodPre ++ rem ≠ "/api/categories".toList := append_ne rem rfl

theorem foodPre_ne_listFoods (rem : List Char) :
    foodPre ++ rem ≠ "/api/foods".toList := append_ne rem rfl

theorem tmplPre_ne_health (rem : List Char) :
    tmplPre ++ rem ≠ "/health".toList := append_ne rem rfl

theorem tmplPre_ne_listCat (rem : List Char) :
    tmplPre ++ rem ≠ "/api/categories".toList := append_ne rem rfl

theorem tmplPre_ne_listFoods (rem : List Char) :
    tmplPre ++ rem ≠ "/api/foods".toList := append_ne rem rfl

theorem handle_list_foods_limit_congr (conn : Option Backend)
    (c s ls ls' : Option (List Char)) (h : parseLimit ls = parseLimit ls') :
    handle_list_foods conn c s ls = handle_list_foods conn c s ls' := by
  unfold handle_list_foods buildFoodsQuery
  rw [h]

/-- C5: for GET /api/foods the limit parameter defaults to 100 when omitted;
the values `0`, `-5`, `5000` and `abc` each give exactly the behaviour of
omitting the parameter, and no limit value is ever an error — the effective
limit always lies in [1, 1000]. -/
theorem C5_foods_limit_default (conn : Option Backend)
    (c s : Option (List Char)) :
    handle_list_foods conn c s (some "0".toList) =
        handle_list_foods conn c s none ∧
    handle_list_foods conn c s (some "-5".toList) =
        handle_list_foods conn c s none ∧
    handle_list_foods conn c s (some "5000".toList) =
        handle_list_foods conn c s none ∧
    handle_list_foods conn c s (some "abc".toList) =
        handle_list_foods conn c s none ∧
    parseLimit none = 100 ∧
    (∀ ls : Option (List Char), 1 ≤ parseLimit ls ∧ parseLimit ls ≤ 1000) := by
  refine ⟨handle_list_foods_limit_congr conn c s _ _ (by decide),
          handle_list_foods_limit_congr conn c s _ _ (by decide),
          handle_list_foods_limit_congr conn c s _ _ (by decide),
          handle_list_foods_limit_congr conn c s _ _ (by decide),
          rfl, ?_⟩
  intro ls
  cases ls with
  | none => exact ⟨by decide, by decide⟩
  | some str =>
    simp only [parseLimit]
    split
    · exact ⟨by decide, by decide⟩
    · next hcond =>
        push_neg at hcond
        exact ⟨by omega, by omega⟩

/-- C4 counterexample: the remainder `12abc` is not a valid positive decimal
integer, yet GET /api/foods/12abc is dispatched to the food handler with
id 12 instead of being treated as no match. -/
theorem C4_counterexample :
    dispatchGet "/api/foods/12abc".toList = RouteAction.getFood 12 ∧
    posDecimal "12abc".toList = false := by decide

/-- C4 amended: for both parameterized GET routes the match condition is
that C `atoi` applied to the remainder (optional whitespace and sign, then
the maximal leading digit run, trailing characters ignored) yields a
positive value; a remainder whose `atoi` value is zero or negative — in
particular empty, non-numeric, zero or negative remainders — is treated as
no match and falls through to the 404, never a parse error or any other
status. -/
theorem C4_id_routes_amended (rem : List Char) (hne : rem ≠ []) :
    (0 < atoi rem →
       dispatchGet (catPre ++ rem) = RouteAction.getCategory (atoi rem) ∧
       dispatchGet (foodPre ++ rem) = RouteAction.getFood (atoi rem)) ∧
    (atoi rem ≤ 0 →
       dispatchGet (catPre ++ rem) = RouteAction.notFound ∧
       dispatchGet (foodPre ++ rem) = RouteAction.notFound) := by
  have ecat : extract_id_from_path (catPre ++ rem) catPre = atoi rem := by
    unfold extract_id_from_path
    rw [stripPre_append]
    cases rem with
    | nil => exact absurd rfl hne
    | cons c cs => rfl
  have efood : extract_id_from_path (foodPre ++ rem) foodPre = atoi rem := by
    unfold extract_id_from_path
    rw [stripPre_append]
    cases rem with
    | nil => exact absurd rfl hne
    | cons c cs => rfl
  have ecatx : extract_id_from_path (catPre ++ rem) foodPre = -1 := by
    unfold extract_id_from_path
    rw [show stripPre foodPre (catPre ++ rem) = none from rfl]
  have efoodx : extract_id_from_path (foodPre ++ rem) catPre = -1 := by
    unfold extract_id_from_path
    rw [show stripPre catPre (foodPre ++ rem) = none from rfl]
  have ecatt : extract_template_id (catPre ++ rem) = -1 := by
    unfold extract_template_id
    rw [show stripPre tmplPre (catPre ++ rem) = none from rfl]
  have efoodt : extract_template_id (foodPre ++ rem) = -1 := by
    unfold extract_template_id
    rw [show stripPre tmplPre (foodPre ++ rem) = none from rfl]
  constructor
  · intro hpos
    constructor
    · simp only [dispatchGet]
      rw [if_neg (catPre_ne_health rem), if_neg (catPre_ne_listCat rem),
          ecat, if_pos hpos]
    · simp only [dispatchGet]
      rw [if_neg (foodPre_ne_health rem), if_neg (foodPre_ne_listCat rem),
          efoodx, if_neg (by decide), if_neg (foodPre_ne_listFoods rem),
          efood, if_pos hpos]
  · intro hle
    constructor
    · simp only [dispatchGet]
      rw [if_neg (catPre_ne_health rem), if_neg (catPre_ne_listCat rem),
          ecat, if_neg (not_lt.mpr hle), if_neg (catPre_ne_listFoods rem),
          ecatx, if_neg (by decide), ecatt, if_neg (by decide)]
    · simp only [dispatchGet]
      rw [if_neg (foodPre_ne_health rem), if_neg (foodPre_ne_listCat rem),
          efoodx, if_neg (by decide), if_neg (foodPre_ne_listFoods rem),
          efood, if_neg (not_lt.mpr hle), efoodt, if_neg (by decide)]

/-- C4 amended, witness: the non-numeric remainder `abc` falls through to
404 on both parameterized routes. -/
theorem C4_id_routes_amended_witness :
    "abc".toList ≠ ([] : List Char) ∧ atoi "abc".toList ≤ 0 ∧
    dispatchGet (catPre ++ "abc".toList) = RouteAction.notFound ∧
    dispatchGet (foodPre ++ "abc".toList) = RouteAction.notFound := by
  refine ⟨by decide, by decide, ?_, ?_⟩
  · exact ((C4_id_routes_amended "abc".toList (by decide)).2 (by decide)).1
  · exact ((C4_id_routes_amended "abc".toList (by decide)).2 (by decide)).2

theorem skipWs_of_noLead {s : List Char} (h : noLeadWs s = true) :
    skipWs s = s := by
  cases s with
  | nil => rfl
  | cons c cs =>
    simp only [noLeadWs, Bool.not_eq_true'] at h
    simp [skipWs, h]

theorem intLit_noLead {rem : List Char} {v : Int}
    (h : intLitFull rem = some v) : noLeadWs rem = true := by
  cases rem with
  | nil => rfl
  | cons c cs =>
    simp only [noLeadWs, Bool.not_eq_true']
    by_contra hc
    have hc' : isCSpace c = true := by
      revert hc; cases isCSpace c <;> simp
    have h1 : c ≠ '-' := by
      intro e; rw [e] at hc'; exact absurd hc' (by decide)
    have h2 : c ≠ '+' := by
      intro e; rw [e] at hc'; exact absurd hc' (by decide)
    have hd : Char.isDigit c = false := by
      simp only [isCSpace, Bool.or_eq_true, beq_iff_eq] at hc'
      rcases hc' with ((((e | e) | e) | e) | e) | e <;> rw [e] <;> decide
    have hsp : splitSign (c :: cs) = (false, c :: cs) := by
      rw [splitSign]
      · intro t he
        exact h1 (List.head_eq_of_cons_eq he)
      · intro t he
        exact h2 (List.head_eq_of_cons_eq he)
    rw [intLitFull] at h
    rw [hsp] at h
    rw [show parseDigits (c :: cs) = none by
      simp [parseDigits, List.takeWhile_cons, hd]] at h
    exact Option.noConfusion h

theorem extract_tmpl_append (rem : List Char) (h : noLeadWs rem = true) :
    extract_template_id (tmplPre ++ rem) =
      match intLitFull rem with
      | none => -1
      | some v => wrap32 v := by
  unfold extract_template_id
  rw [stripPre_append]
  simp only [strtol10, intLitFull, skipWs_of_noLead h]
  cases hp : parseDigits (splitSign rem).2 with
  | none => simp
  | some p =>
    by_cases hf : p.2 = "/full".toList
    · simp [hf]
    · have hf' : ¬(p.2 = ['/', 'f', 'u', 'l', 'l']) := by simpa using hf
      simp [hf']

theorem wrap32_eq {v : Int} (h1 : -(2 ^ 31) ≤ v) (h2 : v < 2 ^ 31) :
    wrap32 v = v := by
  have e31 : ((2 : Int) ^ 31) = 2147483648 := by norm_num
  have e32 : ((2 : Int) ^ 32) = 4294967296 := by norm_num
  rw [e31] at h1 h2
  rw [wrap32, e31, e32, Int.emod_eq_of_lt (by omega) (by omega)]
  omega

/-- C7: the `/api/templates/{id}/full` pattern matches exactly when the
remainder after the prefix parses as an integer literal immediately followed
by the literal suffix `/full` and the id is positive (stated for values
within the `int` range, where the `(int)` cast is the identity); a remainder
with a non-positive value, or — for remainders without leading whitespace,
which URLs paths do not carry — one that does not fit the
integer-then-`/full` grammar (empty, non-numeric, wrong suffix, or extra
characters), is a non-match falling through to the 404. -/
theorem C7_template_full_route (rem : List Char) :
    (∀ v : Int, intLitFull rem = some v → 0 < v → v < 2 ^ 31 →
       dispatchGet (tmplPre ++ rem) = RouteAction.templateFull v) ∧
    (∀ v : Int, intLitFull rem = some v → -(2 ^ 31) < v → v ≤ 0 →
       dispatchGet (tmplPre ++ rem) = RouteAction.notFound) ∧
    (intLitFull rem = none → noLeadWs rem = true →
       dispatchGet (tmplPre ++ rem) = RouteAction.notFound) := by
  have hp31 : (0 : Int) < 2 ^ 31 := by positivity
  have ecid : extract_id_from_path (tmplPre ++ rem) catPre = -1 := by
    unfold extract_id_from_path
    rw [show stripPre catPre (tmplPre ++ rem) = none from rfl]
  have efid : extract_id_from_path (tmplPre ++ rem) foodPre = -1 := by
    unfold extract_id_from_path
    rw [show stripPre foodPre (tmplPre ++ rem) = none from rfl]
  refine ⟨?_, ?_, ?_⟩
  · intro v hv hpos hlt
    have ht : extract_template_id (tmplPre ++ rem) = v := by
      rw [extract_tmpl_append rem (intLit_noLead hv)]
      simp only [hv]
      exact wrap32_eq (by linarith) hlt
    simp only [dispatchGet]
    rw [if_neg (tmplPre_ne_health rem), if_neg (tmplPre_ne_listCat rem),
        ecid, if_neg (by decide), if_neg (tmplPre_ne_listFoods rem), efid,
        if_neg (by decide), ht, if_pos hpos]
  · intro v hv hgt hle
    have ht : extract_template_id (tmplPre ++ rem) = v := by
      rw [extract_tmpl_append rem (intLit_noLead hv)]
      simp only [hv]
      exact wrap32_eq (le_of_lt hgt) (by linarith)
    simp only [dispatchGet]
    rw [if_neg (tmplPre_ne_health rem), if_neg (tmplPre_ne_listCat rem),
        ecid, if_neg (by decide), if_neg (tmplPre_ne_listFoods rem), efid,
        if_neg (by decide), ht, if_neg (not_lt.mpr hle)]
  · intro hnone hlead
    have ht : extract_template_id (tmplPre ++ rem) = -1 := by
      rw [extract_tmpl_append rem hlead]
      simp only [hnone]
    simp only [dispatchGet]
    rw [if_neg (tmplPre_ne_health rem), if_neg (tmplPre_ne_listCat rem),
        ecid, if_neg (by decide), if_neg (tmplPre_ne_listFoods rem), efid,
        if_neg (by decide), ht, if_neg (by decide)]

/-- C7 witness: the remainder `7/full` parses as 7 followed by `/full` and
GET /api/templates/7/full dispatches to the template-full handler with
id 7. -/
theorem C7_template_full_route_witness :
    intLitFull "7/full".toList = some 7 ∧ (0 : Int) < 7 ∧
    (7 : Int) < 2 ^ 31 ∧
    dispatchGet (tmplPre ++ "7/full".toList) = RouteAction.templateFull 7 :=
  ⟨by decide, by decide, by decide,
   (C7_template_full_route "7/full".toList).1 7 (by decide) (by decide)
     (by decide)⟩

/-- C1: in every reachable state of the worker pool at most one worker has
a `db_query`/`db_execute` call in flight on the shared handle — the mutex
covers the whole query-send plus result-fetch sequence (`send` and the
fetching return step both require the lock by construction of `DbStep`), so
the calls of all concurrent workers are serialized, one in flight at a
time. -/
theorem C1_sdh_mutual_exclusion {n : Nat} {s : MState n} (h : Reach n s)
    (t u : Fin n) (ht : inFlight s t) (hu : inFlight s u) : t = u := by
  have h1 := lockInv_of_reach h t ht
  have h2 := lockInv_of_reach h u hu
  rw [h1] at h2
  exact Option.some_inj.mp h2

/-- C1 witness: a concrete reachable two-worker state in which worker 0
holds the mutex inside the critical section. -/
theorem C1_sdh_mutual_exclusion_witness :
    Reach 2 wState ∧ inFlight wState 0 ∧ (0 : Fin 2) = 0 :=
  have hr : Reach 2 wState :=
    Reach.step
      (Reach.step Reach.init
        (DbStep.callOp none (fun _ => Phase.idle) 0 rfl))
      (DbStep.acquire wPc1 0 rfl)
  ⟨hr, Or.inl rfl, C1_sdh_mutual_exclusion hr 0 0 (Or.inl rfl) (Or.inl rfl)⟩

/-! ## Body-collector lemmas -/

theorem accumulate_ok (chunks : List (List Char)) (acc : List Char)
    (h : acc.length + (chunks.map List.length).sum ≤ MAX_POST_SIZE) :
    accumulate acc chunks = Sum.inl (acc ++ chunks.flatten) := by
  induction chunks generalizing acc with
  | nil => simp [accumulate]
  | cons c rest ih =>
    simp only [List.map_cons, List.sum_cons] at h
    have hn : ¬(acc.length + c.length > MAX_POST_SIZE) := by omega
    simp only [accumulate, if_neg hn]
    rw [ih (acc ++ c) (by simp only [List.length_append]; omega)]
    simp [List.append_assoc]

theorem accumulate_overflow (chunks : List (List Char)) (acc : List Char)
    (hacc : acc.length ≤ MAX_POST_SIZE)
    (h : MAX_POST_SIZE < acc.length + (chunks.map List.length).sum) :
    ∃ k, accumulate acc chunks = Sum.inr k ∧
      acc.length + ((chunks.take k).map List.length).sum ≤ MAX_POST_SIZE ∧
      MAX_POST_SIZE <
        acc.length + ((chunks.take (k + 1)).map List.length).sum ∧
      k < chunks.length := by
  induction chunks generalizing acc with
  | nil =>
    exfalso
    simp only [List.map_nil, List.sum_nil, Nat.add_zero] at h
    omega
  | cons c rest ih =>
    by_cases hc : MAX_POST_SIZE < acc.length + c.length
    · refine ⟨0, ?_, ?_, ?_, ?_⟩
      · simp only [accumulate, if_pos hc]
      · simpa using hacc
      · simpa using hc
      · simp
    · push_neg at hc
      simp only [List.map_cons, List.sum_cons] at h
      obtain ⟨k, hk1, hk2, hk3, hk4⟩ :=
        ih (acc ++ c) (by simp only [List.length_append]; omega)
          (by simp only [List.length_append]; omega)
      refine ⟨k + 1, ?_, ?_, ?_, ?_⟩
      · simp only [accumulate, if_neg (by omega : ¬(acc.length + c.length > MAX_POST_SIZE))]
        rw [hk1]
      · simp only [List.take_succ_cons, List.map_cons, List.sum_cons]
        simp only [List.length_append] at hk2
        omega
      · simp only [List.take_succ_cons, List.map_cons, List.sum_cons]
        simp only [List.length_append] at hk3
        omega
      · simp only [List.length_cons]
        omega

/-- C2: for every POST connection whose chunk sequence would in aggregate
exceed the 1 MiB cap, the handler rejects with 413 at the first chunk that
would cross the cap (the chunks accumulated so far fit, adding the next one
does not), the bulk-insert handler is never invoked, and the per-connection
accumulation state slot is left released. -/
theorem C2_post_body_cap (conn : Option Backend)
    (parse : List Char → Option Json) (url : List Char)
    (chunks : List (List Char))
    (h : MAX_POST_SIZE < (chunks.map List.length).sum) :
    (∃ k, (runPost conn parse url chunks).final = PostFinal.rejected k ∧
       ((chunks.take k).map List.length).sum ≤ MAX_POST_SIZE ∧
       MAX_POST_SIZE < ((chunks.take (k + 1)).map List.length).sum ∧
       k < chunks.length) ∧
    (runPost conn parse url chunks).final.status = 413 ∧
    (∀ r, (runPost conn parse url chunks).final ≠ PostFinal.handled r) ∧
    (runPost conn parse url chunks).conCls = none := by
  obtain ⟨k, hk1, hk2, hk3, hk4⟩ :=
    accumulate_overflow chunks [] (by simp [MAX_POST_SIZE]) (by simpa using h)
  have hrun : runPost conn parse url chunks = ⟨.rejected k, none⟩ := by
    simp only [runPost, hk1]
  refine ⟨⟨k, ?_, ?_, ?_, hk4⟩, ?_, ?_, ?_⟩
  · rw [hrun]
  · simpa using hk2
  · simpa using hk3
  · rw [hrun]; rfl
  · intro r hr
    rw [hrun] at hr
    exact PostFinal.noConfusion hr
  · rw [hrun]

/-- C2 witness: a single chunk one byte over the cap is rejected with 413
and the state slot is released. -/
theorem C2_post_body_cap_witness :
    MAX_POST_SIZE < (c2chunks.map List.length).sum ∧
    (runPost none (fun _ => none) [] c2chunks).final.status = 413 ∧
    (runPost none (fun _ => none) [] c2chunks).conCls = none :=
  have h : MAX_POST_SIZE < (c2chunks.map List.length).sum := by
    simp only [c2chunks, List.map_cons, List.map_nil, List.sum_cons,
      List.sum_nil, List.length_replicate]
    omega
  ⟨h, (C2_post_body_cap none (fun _ => none) [] c2chunks h).2.1,
   (C2_post_body_cap none (fun _ => none) [] c2chunks h).2.2.2⟩

/-- C10: for POST requests body accumulation precedes routing — an
over-cap body yields 413 no matter what the path is, while with an in-cap
body an unmatched path receives its 404 only on the final zero-byte
callback, after the entire body has been consumed into the accumulation
buffer; the state slot is released on both terminal paths. -/
theorem C10_post_accumulate_then_route (conn : Option Backend)
    (parse : List Char → Option Json) (url : List Char)
    (chunks : List (List Char)) :
    (MAX_POST_SIZE < (chunks.map List.length).sum →
       ∃ k, (runPost conn parse url chunks).final = PostFinal.rejected k ∧
         (runPost conn parse url chunks).final.status = 413 ∧
         (runPost conn parse url chunks).conCls = none) ∧
    ((chunks.map List.length).sum ≤ MAX_POST_SIZE →
       url ≠ "/api/benchmark/bulk-insert".toList →
       accumulate [] chunks = Sum.inl chunks.flatten ∧
       (runPost conn parse url chunks).final = PostFinal.notFound ∧
       (runPost conn parse url chunks).final.status = 404 ∧
       (runPost conn parse url chunks).conCls = none) := by
  constructor
  · intro h
    obtain ⟨k, hk1, hk2, hk3, hk4⟩ :=
      accumulate_overflow chunks [] (by simp [MAX_POST_SIZE])
        (by simpa using h)
    have hrun : runPost conn parse url chunks = ⟨.rejected k, none⟩ := by
      simp only [runPost, hk1]
    exact ⟨k, by rw [hrun], by rw [hrun]; rfl, by rw [hrun]⟩
  · intro h hurl
    have hacc : accumulate [] chunks = Sum.inl chunks.flatten := by
      have := accumulate_ok chunks [] (by simpa using h)
      simpa using this
    have hrun : runPost conn parse url chunks = ⟨.notFound, none⟩ := by
      simp only [runPost, hacc, if_neg hurl]
    exact ⟨hacc, by rw [hrun], by rw [hrun]; rfl, by rw [hrun]⟩

/-- C10 witness: a two-byte body POSTed to an unmatched path is fully
accumulated, answered 404, and the state slot is released. -/
theorem C10_post_accumulate_then_route_witness :
    ((["ab".toList].map List.length).sum ≤ MAX_POST_SIZE ∧
       "/nope".toList ≠ "/api/benchmark/bulk-insert".toList) ∧
    (runPost none (fun _ => none) "/nope".toList ["ab".toList]).final =
      PostFinal.notFound ∧
    (runPost none (fun _ => none) "/nope".toList ["ab".toList]).conCls =
      none :=
  have h1 : (["ab".toList].map List.length).sum ≤ MAX_POST_SIZE := by decide
  have h2 : "/nope".toList ≠ "/api/benchmark/bulk-insert".toList := by decide
  ⟨⟨h1, h2⟩,
   ((C10_post_accumulate_then_route none (fun _ => none) "/nope".toList
       ["ab".toList]).2 h1 h2).2.1,
   ((C10_post_accumulate_then_route none (fun _ => none) "/nope".toList
       ["ab".toList]).2 h1 h2).2.2.2⟩

/-! ## Aggregate-builder lemmas -/

theorem buildDay_id (conn : Option Backend) (r : Row) :
    (buildDay conn r).id = cellInt r 0 := rfl

theorem buildMeal_id (conn : Option Backend) (r : Row) :
    (buildMeal conn r).id = cellInt r 0 := rfl

theorem buildDay_meals (conn : Option Backend) (r : Row) :
    (buildDay conn r).meals =
      match db_query conn (.meals (cellInt r 0)) with
      | none => []
      | some mealRows => (mealRows.take 50).map (buildMeal conn) := rfl

theorem buildMeal_items (conn : Option Backend) (r : Row) :
    (buildMeal conn r).items =
      match db_query conn (.items (cellInt r 0)) with
      | none => []
      | some itemRows => itemRows.map itemOfRow := rfl

/-- C3: in the template-full aggregate builder an absent template row is a
404 "Template not found"; a failed template or days query is a fatal 500
"Database error"; but a failed meals query for a single day or items query
for a single meal is non-fatal — that branch keeps its empty child list and
the request still answers 200 with the remaining siblings aggregated. -/
theorem C3_template_full_failure_policy (conn : Option Backend) (id : Int) :
    (db_query conn (.template id) = none →
       handle_get_template_full conn id = Resp.err 500 dbErrMsg) ∧
    (db_query conn (.template id) = some [] →
       handle_get_template_full conn id = Resp.err 404 tmplNotFoundMsg) ∧
    (∀ r rs, db_query conn (.template id) = some (r :: rs) →
       db_query conn (.days id) = none →
       handle_get_template_full conn id = Resp.err 500 dbErrMsg) ∧
    (∀ r rs dayRows, db_query conn (.template id) = some (r :: rs) →
       db_query conn (.days id) = some dayRows →
       ∃ t, handle_get_template_full conn id = Resp.ok 200 t ∧
         (∀ d ∈ t.days,
            db_query conn (.meals d.id) = none → d.meals = []) ∧
         (∀ d ∈ t.days, ∀ m ∈ d.meals,
            db_query conn (.items m.id) = none → m.items = [])) := by
  refine ⟨?_, ?_, ?_, ?_⟩
  · intro h
    simp only [handle_get_template_full, h]
  · intro h
    simp only [handle_get_template_full, h]
  · intro r rs h1 h2
    simp only [handle_get_template_full, h1, h2]
  · intro r rs dayRows h1 h2
    refine ⟨⟨cellInt r 0, cellStr r 1, cellStr r 2, cellStr r 3, cellStr r 4,
             cellStr r 5, cellInt r 6, cellInt r 7,
             (dayRows.take 100).map (buildDay conn)⟩,
           ?_, ?_, ?_⟩
    · simp only [handle_get_template_full, h1, h2]
    · intro d hd
      obtain ⟨rr, _, rfl⟩ := List.mem_map.1 hd
      intro hq
      rw [buildDay_id] at hq
      rw [buildDay_meals, hq]
    · intro d hd m hm
      obtain ⟨rr, _, rfl⟩ := List.mem_map.1 hd
      rw [buildDay_meals] at hm
      cases hmq : db_query conn (.meals (cellInt rr 0)) with
      | none => rw [hmq] at hm; exact absurd hm (List.not_mem_nil m)
      | some mealRows =>
        rw [hmq] at hm
        obtain ⟨mr, _, rfl⟩ := List.mem_map.1 hm
        intro hq
        rw [buildMeal_id] at hq
        rw [buildMeal_items, hq]

/-- C3 witness: on the concrete backend `wBackend` (template 1 present, two
days, failing meals query for day 11, one meal for day 12 with failing
items query) the request still answers 200 and the failed branches are
empty. -/
theorem C3_template_full_failure_policy_witness :
    db_query (some wBackend) (.template 1) = some [wRowT] ∧
    db_query (some wBackend) (.days 1) = some [wRowD1, wRowD2] ∧
    ∃ t, handle_get_template_full (some wBackend) 1 = Resp.ok 200 t ∧
      (∀ d ∈ t.days, db_query (some wBackend) (.meals d.id) = none →
         d.meals = []) ∧
      (∀ d ∈ t.days, ∀ m ∈ d.meals,
         db_query (some wBackend) (.items m.id) = none → m.items = []) :=
  ⟨rfl, rfl,
   (C3_template_full_failure_policy (some wBackend) 1).2.2.2 wRowT []
     [wRowD1, wRowD2] rfl rfl⟩

/-- C8: the aggregate builder keeps at most the first 100 day rows and at
most the first 50 meal rows per day, in row order, silently dropping the
overflow while still answering 200; the items of a meal are not bounded. -/
theorem C8_aggregation_bounds (conn : Option Backend) (id : Int) :
    ∀ r rs dayRows, db_query conn (.template id) = some (r :: rs) →
      db_query conn (.days id) = some dayRows →
      ∃ t, handle_get_template_full conn id = Resp.ok 200 t ∧
        t.days.length = min dayRows.length 100 ∧
        t.days.map DayOut.id = (dayRows.take 100).map (fun rr => cellInt rr 0) ∧
        (∀ d ∈ t.days, ∀ mealRows,
           db_query conn (.meals d.id) = some mealRows →
           d.meals.length = min mealRows.length 50 ∧
           d.meals.map MealOut.id =
             (mealRows.take 50).map (fun rr => cellInt rr 0)) ∧
        (∀ d ∈ t.days, ∀ m ∈ d.meals, ∀ itemRows,
           db_query conn (.items m.id) = some itemRows →
           m.items.length = itemRows.length) := by
  intro r rs dayRows h1 h2
  refine ⟨⟨cellInt r 0, cellStr r 1, cellStr r 2, cellStr r 3, cellStr r 4,
           cellStr r 5, cellInt r 6, cellInt r 7,
           (dayRows.take 100).map (buildDay conn)⟩,
         ?_, ?_, ?_, ?_, ?_⟩
  · simp only [handle_get_template_full, h1, h2]
  · simp only [List.length_map, List.length_take]
    omega
  · rw [List.map_map]
    rfl
  · intro d hd mealRows
    obtain ⟨rr, _, rfl⟩ := List.mem_map.1 hd
    rw [buildDay_id]
    intro hq
    rw [buildDay_meals, hq]
    constructor
    · simp only [List.length_map, List.length_take]
      omega
    · rw [List.map_map]
      rfl
  · intro d hd m hm itemRows
    obtain ⟨rr, _, rfl⟩ := List.mem_map.1 hd
    rw [buildDay_meals] at hm
    cases hmq : db_query conn (.meals (cellInt rr 0)) with
    | none => rw [hmq] at hm; exact absurd hm (List.not_mem_nil m)
    | some mealRows2 =>
      rw [hmq] at hm
      obtain ⟨mr, _, rfl⟩ := List.mem_map.1 hm
      rw [buildMeal_id]
      intro hq
      rw [buildMeal_items, hq, List.length_map]

/-- C8 witness: on `wBackend`, day 12's single meal row yields one meal in
the output. -/
theorem C8_aggregation_bounds_witness :
    db_query (some wBackend) (.template 1) = some [wRowT] ∧
    db_query (some wBackend) (.days 1) = some [wRowD1, wRowD2] ∧
    ∃ t, handle_get_template_full (some wBackend) 1 = Resp.ok 200 t ∧
      t.days.length = min ([wRowD1, wRowD2] : List Row).length 100 :=
  have h :=
    C8_aggregation_bounds (some wBackend) 1 wRowT [] [wRowD1, wRowD2] rfl rfl
  ⟨rfl, rfl, h.choose, h.choose_spec.1, h.choose_spec.2.1⟩

/-! ## Bulk-insert lemmas -/

theorem countInserted_filter (conn : Option Backend) (mealId : Int) :
    ∀ (items : List Json) (i : Nat),
      countInserted conn mealId i items =
        ((List.enumFrom i items).filter
          (fun p => itemInserted conn mealId p.1 p.2)).length := by
  intro items
  induction items with
  | nil => intro i; rfl
  | cons a l ih =>
    intro i
    simp only [countInserted, List.enumFrom, List.filter_cons]
    cases hb : itemInserted conn mealId i a with
    | true => simp [hb, ih (i + 1)]; omega
    | false => simp [hb, ih (i + 1)]

theorem countInserted_dead (mealId : Int) :
    ∀ (items : List Json) (i : Nat), countInserted none mealId i items = 0 := by
  intro items
  induction items with
  | nil => intro i; rfl
  | cons a l ih =>
    intro i
    simp only [countInserted, ih (i + 1), Nat.add_zero]
    cases hq : insertQueryOf mealId i a with
    | none => simp [itemInserted, hq]
    | some q => simp [itemInserted, hq, db_execute]

/-- C6: given a payload with a numeric `meal_id` and an `items` array, an
entry missing a numeric food reference, min portion or max portion is
skipped without failing the batch; the returned count equals exactly the
number of entries whose own insert succeeded, and the status is 201
regardless of partial per-item failures. -/
theorem C6_bulk_insert_batch (conn : Option Backend) (input : Json)
    (mealId : Int) (items : List Json)
    (h1 : getItem input "meal_id".toList = some (Json.num mealId))
    (h2 : getItem input "items".toList = some (Json.arr items)) :
    handle_bulk_insert conn (some input) =
      Resp.ok 201
        ((((List.enumFrom 0 items).filter
            (fun p => itemInserted conn mealId p.1 p.2)).length : Nat) :
          Int) ∧
    (handle_bulk_insert conn (some input)).status = 201 ∧
    (∀ i item, insertQueryOf mealId i item = none →
       itemInserted conn mealId i item = false) ∧
    (∀ i item q, insertQueryOf mealId i item = some q →
       (itemInserted conn mealId i item = true ↔
          0 ≤ db_execute conn (.insertItem q))) := by
  have hmain : handle_bulk_insert conn (some input) =
      Resp.ok 201 ((countInserted conn mealId 0 items : Nat) : Int) := by
    simp only [handle_bulk_insert, h1, h2]
  refine ⟨?_, ?_, ?_, ?_⟩
  · rw [hmain, countInserted_filter conn mealId items 0]
  · rw [hmain]; rfl
  · intro i item h
    simp [itemInserted, h]
  · intro i item q hq
    simp [itemInserted, hq]

/-- C6 witness: a batch of five items of which two lack a required field,
on a backend where every insert succeeds, answers 201 with count 3. -/
theorem C6_bulk_insert_batch_witness :
    getItem c6Payload "meal_id".toList = some (Json.num 7) ∧
    getItem c6Payload "items".toList = some (Json.arr c6Items) ∧
    handle_bulk_insert (some okBackend) (some c6Payload) = Resp.ok 201 3 :=
  ⟨rfl, rfl,
   ((C6_bulk_insert_batch (some okBackend) c6Payload 7 c6Items rfl
       rfl).1).trans (by decide)⟩

/-- C9 counterexample: with a dead connection the bulk-insert route still
touches the database (`db_execute` reports the not-connected `-1`) yet
responds 201 with `inserted_count` 0 — not the 500 the claim asserts for
every database-touching route. -/
theorem C9_counterexample :
    handle_bulk_insert none (some c9Payload) = Resp.ok 201 0 ∧
    (handle_bulk_insert none (some c9Payload)).status ≠ 500 ∧
    db_execute none (.insertItem ⟨1, 2, 10, 20, 0⟩) = -1 := by decide

/-- C9 amended: with a dead connection `db_query` returns the
not-connected NULL and `db_execute` the not-connected `-1` rather than
crashing, and the server keeps serving: every database-touching GET route
surfaces a 500 "Database error", while the bulk-insert POST route instead
answers 201 with `inserted_count` 0 on a well-formed payload. -/
theorem C9_dead_connection_amended :
    (∀ q, db_query none q = none) ∧
    (∀ q, db_execute none q = -1) ∧
    handle_list_categories none = Resp.err 500 dbErrMsg ∧
    (∀ id, handle_get_category none id = Resp.err 500 dbErrMsg) ∧
    (∀ c s l, handle_list_foods none c s l = Resp.err 500 dbErrMsg) ∧
    (∀ id, handle_get_food none id = Resp.err 500 dbErrMsg) ∧
    (∀ id, handle_get_template_full none id = Resp.err 500 dbErrMsg) ∧
    (∀ (mealId : Int) (items : List Json),
       handle_bulk_insert none
         (some (Json.obj
           [("meal_id".toList, Json.num mealId),
            ("items".toList, Json.arr items)])) = Resp.ok 201 0) := by
  refine ⟨fun q => rfl, fun q => rfl, rfl, fun id => rfl, fun c s l => rfl,
         fun id => rfl, fun id => rfl, ?_⟩
  intro mealId items
  have hmain : handle_bulk_insert none
      (some (Json.obj
        [("meal_id".toList, Json.num mealId),
         ("items".toList, Json.arr items)])) =
      Resp.ok 201 ((countInserted none mealId 0 items : Nat) : Int) := rfl
  rw [hmain, countInserted_dead mealId items 0]
  norm_num

end DietApi
